/-
Verification of the Promptify prompt renderer
(`promptify/prompter/nlp_prompter.py`, class `Prompter`).

The Python class is embedded shallowly:
* Python `dict`s become association lists (`Dict β`) with first-match lookup
  and in-place overwrite on insertion, which matches `dict` semantics when
  keys are unique (insertion keeps them unique).
* Python values stored in a variable bag are modelled as `Option α`:
  `none` is Python `None`, `some a` any other value.
* The external collaborators (filesystem, jinja2, the model object) are
  records of abstract functions (`FS`, `ModelExt`).
* The mutable `Prompter` object is a state record (`PState`) threaded
  explicitly; a method that can raise returns the exception together with
  the state as mutated so far, mirroring Python exception semantics.
-/
import Mathlib

set_option autoImplicit false

namespace Promptify

/-! ### Association-list model of Python `dict` -/

/-- A Python `dict` with string keys, as an association list. -/
abbrev Dict (β : Type) := List (String × β)

/-- `d.get(k)` as an `Option`: first entry whose key is `k`. -/
def dictGet? {β : Type} : Dict β → String → Option β
  | [], _ => none
  | (k, v) :: t, k' => if k' = k then some v else dictGet? t k'

/-- `k in d` (Python key-membership test). -/
def dictHas {β : Type} (d : Dict β) (k : String) : Bool :=
  (dictGet? d k).isSome

/-- `d[k] = v`: overwrite in place if the key exists, else append. -/
def dictSet {β : Type} : Dict β → String → β → Dict β
  | [], k, v => [(k, v)]
  | (k', v') :: t, k, v =>
    if k' = k then (k, v) :: t else (k', v') :: dictSet t k v

/-- `d.update(e)`: set every entry of `e` into `d`, overwriting collisions. -/
def dictUpdate {β : Type} (d e : Dict β) : Dict β :=
  e.foldl (fun a kv => dictSet a kv.1 kv.2) d

/-! ### POSIX path helpers (`os.path.split`, `os.path.join`) -/

/-- Drop trailing `'/'` characters (Python `str.rstrip('/')`). -/
def rstripSlash (cs : List Char) : List Char :=
  (cs.reverse.dropWhile (fun c => c = '/')).reverse

/-- `os.path.split` (POSIX): split at the last `'/'`; the head keeps no
trailing slashes unless it consists only of slashes. -/
def pathSplit (p : String) : String × String :=
  let cs := p.data
  let tl := (cs.reverse.takeWhile (fun c => c ≠ '/')).reverse
  let hd := cs.take (cs.length - tl.length)
  let hd2 := if !hd.isEmpty && hd.any (fun c => c ≠ '/') then rstripSlash hd else hd
  (String.mk hd2, String.mk tl)

/-- Python `s.startswith(pre)`. -/
def pyStartsWith (s pre : String) : Bool := pre.data.isPrefixOf s.data

/-- Python `s.endswith(post)`. -/
def pyEndsWith (s post : String) : Bool := post.data.reverse.isPrefixOf s.data.reverse

/-- The characters before the first occurrence of `sep` (all of them when
`sep` does not occur). -/
def charsBefore (sep : List Char) : List Char → List Char
  | [] => []
  | c :: t => if sep.isPrefixOf (c :: t) then [] else c :: charsBefore sep t

/-- Python `s.split(sep)[0]`: the text before the first occurrence of
`sep`. -/
def pySplitHead (s sep : String) : String := String.mk (charsBefore sep.data s.data)

/-- Python `str.strip()`: drop leading and trailing whitespace. -/
def pyStrip (s : String) : String :=
  String.mk (((s.data.dropWhile Char.isWhitespace).reverse.dropWhile
    Char.isWhitespace).reverse)

/-- `os.path.join a b` (POSIX, two components). -/
def pathJoin (a b : String) : String :=
  if pyStartsWith b "/" then b
  else if a = "" || pyEndsWith a "/" then a ++ b
  else a ++ "/" ++ b

/-! ### External collaborators -/

/-- One object of a template's metadata JSON array (`models`, `file_name`). -/
structure MetaEntry where
  models : List String
  file_name : String
deriving DecidableEq, Repr

/-- `get_metadata`'s successful result: the selected entry plus the
`file_path` it writes into the returned dictionary. -/
structure MetaFound where
  models : List String
  file_name : String
  file_path : String
deriving DecidableEq, Repr

/-- A `jinja2.Environment` built with a `FileSystemLoader`: the only datum
the renderer observes is the loader's search directory. -/
structure EnvModel where
  loaderDir : String
deriving DecidableEq, Repr

/-- Filesystem and jinja2 facilities consumed by `Prompter`, abstracted.
`α` is the type of non-`None` Python values in a variable bag. -/
structure FS (α : Type) where
  /-- The built-in templates directory (`.../prompts/text2text`). -/
  templatesDir : String
  /-- `os.listdir(templates_dir)`. -/
  listFolders : List String
  /-- `read_json` of the first `*.json` file in a built-in template's
  folder; `none` models a folder with no metadata file
  (`metadata_files[0]` would raise `IndexError`). -/
  readMetadata : String → Option (List MetaEntry)
  /-- `os.path.isfile`. -/
  isFile : String → Bool
  /-- `jinja2.Template(source)`: compile an inline source string to its
  render function (`template.render(**bag)`). -/
  compileString : String → Dict (Option α) → String
  /-- `Environment(loader=FileSystemLoader(dir)).get_template(name)`,
  as the compiled template's render function. -/
  getTemplate : String → String → Dict (Option α) → String
  /-- `environment.loader.get_source` + `environment.parse` +
  `meta.find_undeclared_variables` for (loader dir, template name).
  jinja2 returns a set, so the list is duplicate-free in practice. -/
  findUndeclared : String → String → List String

/-- One model output after `model_output`: the raw `text` and the parsed
`parsed.data.completion`. -/
structure ModelOut where
  text : String
  completion : String
deriving DecidableEq, Repr

/-- The model collaborator used by `fit`: `execute_with_retry` composed
with the per-output `model_output(·, max_completion_length)` mapping. -/
structure ModelExt where
  runModel : String → Nat → List ModelOut

/-! ### Prompter state -/

/-- The `template_data` dictionary built by `load_template`.  The compiled
template object is modelled by the only thing done with it: `render`. -/
structure TemplateData (α : Type) where
  template_name : String
  template_dir : Option String
  environment : Option EnvModel
  render : Dict (Option α) → String

/-- A conversation message (`create_message(template, prompt,
outputs[0]['text'], outputs[0]['parsed']['data']['completion'],
**variables_dict)`). -/
structure Message (α : Type) where
  template : String
  prompt : String
  output : String
  completion : String
  variables_dict : Dict (Option α)

/-- The mutable state of a `Prompter` instance, plus observation counters
for the externally visible effects the claims mention (template
compilations, variable analyses, model invocations, transcript writes). -/
structure PState (α : Type) where
  /-- `self.model.model`, the model identifier string. -/
  model : String
  allowed_missing_variables : List String
  default_variable_values : Dict (Option α)
  loaded_templates : Dict (TemplateData α)
  prompt_variables_map : Dict (List String)
  prompt_cache : Dict (List ModelOut)
  cache_prompt : Bool
  max_completion_length : Nat
  messages : List (Message α)
  transcriptWrites : Nat
  modelInvocations : Nat
  parseCount : Nat
  analyzeCount : Nat

/-- `Prompter.__init__`: baseline allowed-missing list extended by the
caller, caches empty, and one initial transcript write. -/
def mkPrompter {α : Type} (model : String) (allowed_missing : List String)
    (defaults : Dict (Option α)) (maxLen : Nat) (cachePrompt : Bool) : PState α :=
  { model := model
    allowed_missing_variables :=
      ["examples", "description", "output_format"] ++ allowed_missing
    default_variable_values := defaults
    loaded_templates := []
    prompt_variables_map := []
    prompt_cache := []
    cache_prompt := cachePrompt
    max_completion_length := maxLen
    messages := []
    transcriptWrites := 1
    modelInvocations := 0
    parseCount := 0
    analyzeCount := 0 }

/-! ### Errors -/

/-- Failures of `load_template`.  The raised Python exceptions are:
`resolutionError` — `get_metadata` returned `None` and
`meta_data["file_name"]` raises (the spec's `ResolutionError`);
`noMetadataFile` — `metadata_files[0]` raises `IndexError`;
`pathNotFound` — `verify_template_path`'s `ValueError`
(the spec's `PathNotFoundError`). -/
inductive LoadError where
  | resolutionError (model template : String)
  | noMetadataFile (folder : String)
  | pathNotFound (path : String)
deriving DecidableEq, Repr

/-- Failures of `generate_prompt` / `fit`.  `missingVariables` is the
`ValueError` listing the missing variables (the spec's
`MissingVariablesError`); `indexError` is `outputs[0]` on an empty model
response in `fit`. -/
inductive GenError where
  | load (e : LoadError)
  | missingVariables (variables_missing : List String)
  | indexError
deriving DecidableEq, Repr

/-! ### Methods -/

/-- `Prompter.get_metadata`: strip `.jinja`, read the folder's metadata
file, and return the first entry whose `models` contains `model_name`
(with `file_path` filled in), or `none` when no entry matches. -/
def get_metadata {α : Type} (fs : FS α)
    (model_name template_name template_path : String) :
    Except LoadError (Option MetaFound) :=
  let name0 := pySplitHead template_name ".jinja"
  match fs.readMetadata name0 with
  | none => .error (.noMetadataFile name0)
  | some entries =>
    .ok ((entries.find? (fun m => m.models.contains model_name)).map
      (fun m =>
        { models := m.models
          file_name := m.file_name
          file_path := pathJoin template_path name0 }))

/-- `Prompter.update_default_variable_values`:
`self.default_variable_values.update(new_defaults)`. -/
def update_default_variable_values {α : Type} (s : PState α)
    (new_defaults : Dict (Option α)) : PState α :=
  { s with default_variable_values :=
      dictUpdate s.default_variable_values new_defaults }

/-- `Prompter.verify_template_path`: raise unless `os.path.isfile`. -/
def verify_template_path {α : Type} (fs : FS α) (templates_path : String) :
    Except LoadError Unit :=
  if fs.isFile templates_path then .ok () else .error (.pathNotFound templates_path)

/-- `Prompter.load_template`.  Returns the `template_data` dictionary (or
the raised exception) together with the state as mutated so far.
`parseCount` counts every invocation of the underlying template
parse/compile routine (`Template(...)` or `environment.get_template`). -/
def load_template {α : Type} (fs : FS α) (s : PState α)
    (template : String) (from_string : Bool) :
    Except LoadError (TemplateData α) × PState α :=
  match dictGet? s.loaded_templates template with
  | some td => (.ok td, s)
  | none =>
    if from_string then
      let td : TemplateData α :=
        { template_name := "from_string"
          template_dir := none
          environment := none
          render := fs.compileString template }
      (.ok td,
        { s with
          loaded_templates := dictSet s.loaded_templates template td
          parseCount := s.parseCount + 1 })
    else
      if fs.listFolders.any (fun folder => folder ++ ".jinja" == template) then
        match get_metadata fs s.model template fs.templatesDir with
        | .error e => (.error e, s)
        | .ok none => (.error (.resolutionError s.model template), s)
        | .ok (some m) =>
          let td : TemplateData α :=
            { template_name := m.file_name
              template_dir := some m.file_path
              environment := some { loaderDir := m.file_path }
              render := fs.getTemplate m.file_path m.file_name }
          (.ok td,
            { s with
              loaded_templates := dictSet s.loaded_templates template td
              parseCount := s.parseCount + 1 })
      else
        match verify_template_path fs template with
        | .error e => (.error e, s)
        | .ok _ =>
          let pr := pathSplit template
          let td : TemplateData α :=
            { template_name := pr.2
              template_dir := some pr.1
              environment := some { loaderDir := pr.1 }
              render := fs.getTemplate pr.1 pr.2 }
          (.ok td,
            { s with
              loaded_templates := dictSet s.loaded_templates template td
              parseCount := s.parseCount + 1 })

/-- `Prompter.get_template_variables`: cached per template name; a miss
runs jinja2's static analysis and stores the result. -/
def get_template_variables {α : Type} (fs : FS α) (s : PState α)
    (env : EnvModel) (template_name : String) : List String × PState α :=
  match dictGet? s.prompt_variables_map template_name with
  | some vs => (vs, s)
  | none =>
    let vs := fs.findUndeclared env.loaderDir template_name
    (vs,
      { s with
        prompt_variables_map := dictSet s.prompt_variables_map template_name vs
        analyzeCount := s.analyzeCount + 1 })

/-- `Prompter.generate_prompt`.  `from_string` is the truthiness of
`kwargs.get("from_string", False)`, passed explicitly.  Mirrors the
source: inject `text_input` into the bag; when the loaded template has an
environment, analyze its variables, snapshot `variables_dict`, and raise
on missing variables; then `kwargs.update(self.default_variable_values)`
and render, stripping whitespace. -/
def generate_prompt {α : Type} (fs : FS α) (s : PState α)
    (template : String) (text_input : α) (kwargs : Dict (Option α))
    (from_string : Bool) :
    Except GenError (String × Dict (Option α)) × PState α :=
  match load_template fs s template from_string with
  | (.error e, s1) => (.error (.load e), s1)
  | (.ok loader, s1) =>
    let kwargs2 := dictSet kwargs "text_input" (some text_input)
    match loader.environment with
    | some env =>
      let pr := get_template_variables fs s1 env loader.template_name
      let tVars := pr.1
      let s2 := pr.2
      let variables_dict := tVars.foldl
        (fun acc v => dictSet acc v ((dictGet? kwargs2 v).getD none)) []
      let variables_missing := tVars.filter (fun v =>
        !(dictHas kwargs2 v)
        && !(s2.allowed_missing_variables.contains v)
        && !(dictHas s2.default_variable_values v))
      if variables_missing.isEmpty then
        let merged := dictUpdate kwargs2 s2.default_variable_values
        (.ok (pyStrip (loader.render merged), variables_dict), s2)
      else
        (.error (.missingVariables variables_missing), s2)
    | none =>
      let variables_dict : Dict (Option α) := [("data", none)]
      let merged := dictUpdate kwargs2 s1.default_variable_values
      (.ok (pyStrip (loader.render merged), variables_dict), s1)

/-- `Prompter.fit`: render, then either serve the prompt cache (returning
immediately) or invoke the model, optionally fill the cache, append a
conversation message and rewrite the transcript.  (The `verbose` branch
only prints and is not modelled.) -/
def fit {α : Type} (fs : FS α) (ext : ModelExt) (s : PState α)
    (template : String) (text_input : α) (kwargs : Dict (Option α))
    (from_string : Bool) :
    Except GenError (List ModelOut) × PState α :=
  match generate_prompt fs s template text_input kwargs from_string with
  | (.error e, s1) => (.error e, s1)
  | (.ok (prompt, variables_dict), s1) =>
    if s1.cache_prompt && dictHas s1.prompt_cache prompt then
      (.ok ((dictGet? s1.prompt_cache prompt).getD []), s1)
    else
      let outputs := ext.runModel prompt s1.max_completion_length
      let s2 := { s1 with modelInvocations := s1.modelInvocations + 1 }
      let s3 :=
        if s2.cache_prompt then
          { s2 with prompt_cache := dictSet s2.prompt_cache prompt outputs }
        else s2
      match outputs with
      | [] => (.error .indexError, s3)
      | o :: _ =>
        let message : Message α :=
          { template := template
            prompt := prompt
            output := o.text
            completion := o.completion
            variables_dict := variables_dict }
        (.ok outputs,
          { s3 with
            messages := s3.messages ++ [message]
            transcriptWrites := s3.transcriptWrites + 1 })

/-- The list of missing variables `generate_prompt` computes: required
variables absent from the (text-input-injected) bag, from the
allowed-missing list and from the defaults table. -/
def missingOf {α : Type} (s : PState α) (bag : Dict (Option α))
    (vs : List String) : List String :=
  vs.filter (fun v =>
    !(dictHas bag v)
    && !(s.allowed_missing_variables.contains v)
    && !(dictHas s.default_variable_values v))

/-! ### Concrete fixtures used to evaluate the development -/

/-- A concrete compiled template: renders the value of the bag's `topic`
slot (empty for `None`/absent), like `"{{ topic }}"`. -/
def tmplRender : Dict (Option String) → String :=
  fun bag => ((dictGet? bag "topic").getD none).getD ""

/-- Metadata entry compatible with model `model-a` only. -/
def metaA : MetaEntry := { models := ["model-a"], file_name := "a.jinja" }

/-- Metadata entry compatible with model `model-b` only. -/
def metaB : MetaEntry := { models := ["model-b"], file_name := "b.jinja" }

/-- A small concrete filesystem/jinja collaborator: one built-in template
folder `ner` with two metadata entries, one custom template file
`d/custom.jinja`, and every template requiring `text_input` and `topic`. -/
def fs0 : FS String :=
  { templatesDir := "p/text2text"
    listFolders := ["ner"]
    readMetadata := fun f => if f = "ner" then some [metaA, metaB] else none
    isFile := fun p => p == "d/custom.jinja"
    compileString := fun _ _ => "INLINE"
    getTemplate := fun _ _ => tmplRender
    findUndeclared := fun _ _ => ["text_input", "topic"] }

/-- A loaded non-inline template handle named `t.jinja`. -/
def td0 : TemplateData String :=
  { template_name := "t.jinja"
    template_dir := some "dir"
    environment := some { loaderDir := "dir" }
    render := tmplRender }

/-- A prompter with `t` already loaded as `td0` and its variables already
analyzed; empty defaults, baseline allowed-missing list, no caching. -/
def s0 : PState String :=
  { mkPrompter "model-b" [] [] 20 false with
    loaded_templates := [("t", td0)]
    prompt_variables_map := [("t.jinja", ["text_input", "topic"])] }

/-- Like `s0` but with a default value `"default"` for `topic`. -/
def sDef : PState String :=
  { mkPrompter "model-b" [] [("topic", some "default")] 20 false with
    loaded_templates := [("t", td0)]
    prompt_variables_map := [("t.jinja", ["text_input", "topic"])] }

/-- A fresh prompter with nothing loaded. -/
def sEmpty : PState String := mkPrompter "model-b" [] [] 20 false

/-- A fresh prompter whose model `model-c` no metadata entry lists. -/
def sNoMatch : PState String := mkPrompter "model-c" [] [] 20 false

/-- Like `s0` but with prompt caching on and a cached output for the
prompt `"ai"` (which is what rendering `t` with `topic := "ai"` yields). -/
def sCache : PState String :=
  { mkPrompter "model-b" [] [] 20 true with
    loaded_templates := [("t", td0)]
    prompt_variables_map := [("t.jinja", ["text_input", "topic"])]
    prompt_cache := [("ai", [{ text := "cached-text", completion := "cached" }])] }

/-- A model collaborator returning one fixed output. -/
def ext0 : ModelExt :=
  { runModel := fun _ _ => [{ text := "fresh-text", completion := "fresh" }] }

/-! ### Dictionary lemmas -/

theorem dictGet?_dictSet {β : Type} (d : Dict β) (k : String) (v : β) (k' : String) :
    dictGet? (dictSet d k v) k' = if k' = k then some v else dictGet? d k' := by
  induction d with
  | nil => simp [dictSet, dictGet?]
  | cons p t ih =>
    obtain ⟨k0, v0⟩ := p
    by_cases h0 : k0 = k
    · subst h0
      by_cases h1 : k' = k0 <;> simp [dictSet, dictGet?, h1]
    · by_cases h1 : k' = k0
      · subst h1
        simp [dictSet, dictGet?, h0]
      · simp [dictSet, dictGet?, h0, h1, ih]

theorem dictHas_dictSet {β : Type} (d : Dict β) (k : String) (v : β) (k' : String) :
    dictHas (dictSet d k v) k' = if k' = k then true else dictHas d k' := by
  by_cases h : k' = k <;> simp [dictHas, dictGet?_dictSet, h]

theorem dictHas_iff_mem_keys {β : Type} (d : Dict β) (k : String) :
    dictHas d k = true ↔ k ∈ d.map Prod.fst := by
  induction d with
  | nil => simp [dictHas, dictGet?]
  | cons p t ih =>
    obtain ⟨k0, v0⟩ := p
    by_cases h : k = k0
    · simp [dictHas, dictGet?, h]
    · rw [show dictHas ((k0, v0) :: t) k = dictHas t k from by simp [dictHas, dictGet?, h]]
      simp [h, ih]

/-- Looking up after `List.foldl dictSet` over a key list: any key of the
list maps to its image under `f`, all others fall through. -/
theorem dictGet?_foldl_dictSet {β : Type} (f : String → β) (ks : List String)
    (acc : Dict β) (k : String) :
    dictGet? (ks.foldl (fun a v => dictSet a v (f v)) acc) k =
      if k ∈ ks then some (f k) else dictGet? acc k := by
  induction ks generalizing acc with
  | nil => simp
  | cons v t ih =>
    simp only [List.foldl_cons]
    rw [ih]
    by_cases hk : k ∈ t
    · simp [hk]
    · by_cases he : k = v
      · subst he; simp [hk, dictGet?_dictSet]
      · simp [hk, he, dictGet?_dictSet]

/-- `dictUpdate` lookup, for an update argument with unique keys (as any
Python `dict` has): updated keys win, others fall through. -/
theorem dictGet?_dictUpdate {β : Type} (d e : Dict β)
    (h : (e.map Prod.fst).Nodup) (k : String) :
    dictGet? (dictUpdate d e) k =
      if dictHas e k then dictGet? e k else dictGet? d k := by
  induction e generalizing d with
  | nil => simp [dictUpdate, dictHas, dictGet?]
  | cons p t ih =>
    obtain ⟨k0, v0⟩ := p
    simp only [List.map_cons, List.nodup_cons] at h
    obtain ⟨hk0, ht⟩ := h
    have hstep : dictUpdate d ((k0, v0) :: t) = dictUpdate (dictSet d k0 v0) t := rfl
    rw [hstep, ih _ ht]
    by_cases hkt : dictHas t k
    · have hmem : k ∈ t.map Prod.fst := (dictHas_iff_mem_keys t k).mp hkt
      have hne : k ≠ k0 := fun he => hk0 (he ▸ hmem)
      have h1 : dictGet? ((k0, v0) :: t) k = dictGet? t k := by simp [dictGet?, hne]
      have h2 : dictHas ((k0, v0) :: t) k = true := by simpa [dictHas, h1] using hkt
      rw [if_pos hkt, if_pos h2, h1]
    · by_cases he : k = k0
      · subst he
        have h1 : dictGet? ((k, v0) :: t) k = some v0 := by simp [dictGet?]
        have h2 : dictHas ((k, v0) :: t) k = true := by simp [dictHas, h1]
        rw [if_neg hkt, if_pos h2, h1, dictGet?_dictSet]
        simp
      · have h1 : dictGet? ((k0, v0) :: t) k = dictGet? t k := by simp [dictGet?, he]
        have h2 : dictHas ((k0, v0) :: t) k = dictHas t k := by simp [dictHas, h1]
        rw [if_neg hkt, dictGet?_dictSet, if_neg he, h2, if_neg hkt]

theorem listContains_iff (l : List String) (a : String) :
    l.contains a = true ↔ a ∈ l := by
  simp [List.contains_iff_exists_mem_beq]

/-! ### Cache-hit and frame lemmas for the methods -/

/-- A reference already in `loaded_templates` is answered from the cache:
the cached handle is returned and the state (counters included) is
untouched, whatever the `from_string` flag says. -/
theorem load_template_cached {α : Type} (fs : FS α) (s : PState α)
    (template : String) (b : Bool) (td : TemplateData α)
    (h : dictGet? s.loaded_templates template = some td) :
    load_template fs s template b = (.ok td, s) := by
  unfold load_template
  rw [h]

/-- The variable list `get_template_variables` returns is the cached one,
or jinja2's analysis on a cache miss. -/
theorem get_template_variables_fst {α : Type} (fs : FS α) (s : PState α)
    (env : EnvModel) (n : String) :
    (get_template_variables fs s env n).1 =
      match dictGet? s.prompt_variables_map n with
      | some vs => vs
      | none => fs.findUndeclared env.loaderDir n := by
  unfold get_template_variables
  cases h : dictGet? s.prompt_variables_map n <;> simp

/-- `get_template_variables` touches only `prompt_variables_map` and the
analysis counter. -/
theorem get_template_variables_frame {α : Type} (fs : FS α) (s : PState α)
    (env : EnvModel) (n : String) :
    ((get_template_variables fs s env n).2).model = s.model
    ∧ ((get_template_variables fs s env n).2).allowed_missing_variables
        = s.allowed_missing_variables
    ∧ ((get_template_variables fs s env n).2).default_variable_values
        = s.default_variable_values
    ∧ ((get_template_variables fs s env n).2).prompt_cache = s.prompt_cache
    ∧ ((get_template_variables fs s env n).2).cache_prompt = s.cache_prompt
    ∧ ((get_template_variables fs s env n).2).max_completion_length
        = s.max_completion_length
    ∧ ((get_template_variables fs s env n).2).messages = s.messages
    ∧ ((get_template_variables fs s env n).2).transcriptWrites = s.transcriptWrites
    ∧ ((get_template_variables fs s env n).2).modelInvocations = s.modelInvocations
    ∧ ((get_template_variables fs s env n).2).loaded_templates = s.loaded_templates
    ∧ ((get_template_variables fs s env n).2).parseCount = s.parseCount := by
  unfold get_template_variables
  cases h : dictGet? s.prompt_variables_map n <;> simp

/-- `load_template` touches only `loaded_templates` and the parse
counter. -/
theorem load_template_frame {α : Type} (fs : FS α) (s : PState α)
    (template : String) (b : Bool) :
    ((load_template fs s template b).2).model = s.model
    ∧ ((load_template fs s template b).2).allowed_missing_variables
        = s.allowed_missing_variables
    ∧ ((load_template fs s template b).2).default_variable_values
        = s.default_variable_values
    ∧ ((load_template fs s template b).2).prompt_cache = s.prompt_cache
    ∧ ((load_template fs s template b).2).cache_prompt = s.cache_prompt
    ∧ ((load_template fs s template b).2).max_completion_length
        = s.max_completion_length
    ∧ ((load_template fs s template b).2).messages = s.messages
    ∧ ((load_template fs s template b).2).transcriptWrites = s.transcriptWrites
    ∧ ((load_template fs s template b).2).modelInvocations = s.modelInvocations
    ∧ ((load_template fs s template b).2).prompt_variables_map
        = s.prompt_variables_map
    ∧ ((load_template fs s template b).2).analyzeCount = s.analyzeCount := by
  unfold load_template
  split
  · simp
  · split
    · simp
    · split
      · split <;> simp
      · split <;> simp

/-- `generate_prompt` never touches the defaults table, the allowed-missing
list, the prompt cache, the transcript, or the model counters. -/
theorem generate_prompt_frame {α : Type} (fs : FS α) (s : PState α)
    (template : String) (ti : α) (kwargs : Dict (Option α)) (b : Bool) :
    ((generate_prompt fs s template ti kwargs b).2).model = s.model
    ∧ ((generate_prompt fs s template ti kwargs b).2).allowed_missing_variables
        = s.allowed_missing_variables
    ∧ ((generate_prompt fs s template ti kwargs b).2).default_variable_values
        = s.default_variable_values
    ∧ ((generate_prompt fs s template ti kwargs b).2).prompt_cache = s.prompt_cache
    ∧ ((generate_prompt fs s template ti kwargs b).2).cache_prompt = s.cache_prompt
    ∧ ((generate_prompt fs s template ti kwargs b).2).max_completion_length
        = s.max_completion_length
    ∧ ((generate_prompt fs s template ti kwargs b).2).messages = s.messages
    ∧ ((generate_prompt fs s template ti kwargs b).2).transcriptWrites
        = s.transcriptWrites
    ∧ ((generate_prompt fs s template ti kwargs b).2).modelInvocations
        = s.modelInvocations := by
  have hl0 := load_template_frame fs s template b
  unfold generate_prompt
  rcases hl : load_template fs s template b with ⟨r, s1⟩
  rw [hl] at hl0
  simp only at hl0
  obtain ⟨l1, l2, l3, l4, l5, l6, l7, l8, l9, _, _⟩ := hl0
  cases r with
  | error e =>
    simp [l1, l2, l3, l4, l5, l6, l7, l8, l9]
  | ok loader =>
    cases henv : loader.environment with
    | none =>
      simp [henv, l1, l2, l3, l4, l5, l6, l7, l8, l9]
    | some env =>
      have hg0 := get_template_variables_frame fs s1 env loader.template_name
      obtain ⟨g1, g2, g3, g4, g5, g6, g7, g8, g9, _, _⟩ := hg0
      simp only [henv]
      split
      · simp [g1.trans l1, g2.trans l2, g3.trans l3, g4.trans l4, g5.trans l5,
          g6.trans l6, g7.trans l7, g8.trans l8, g9.trans l9]
      · simp [g1.trans l1, g2.trans l2, g3.trans l3, g4.trans l4, g5.trans l5,
          g6.trans l6, g7.trans l7, g8.trans l8, g9.trans l9]

/-- Membership in the computed missing-variable list, spelled out: in the
required set, not in the (injected) bag, not allowed-missing, not
defaulted. -/
theorem missingOf_mem {α : Type} (s : PState α) (bag : Dict (Option α))
    (vs : List String) (v : String) :
    v ∈ missingOf s bag vs ↔
      (v ∈ vs ∧ dictHas bag v = false ∧ v ∉ s.allowed_missing_variables
        ∧ dictHas s.default_variable_values v = false) := by
  constructor
  · intro hv
    rw [missingOf, List.mem_filter] at hv
    obtain ⟨h1, hp⟩ := hv
    simp only [Bool.and_eq_true, Bool.not_eq_true', and_assoc] at hp
    obtain ⟨h2, h3, h4⟩ := hp
    refine ⟨h1, h2, ?_, h4⟩
    intro hmem
    rw [(listContains_iff _ _).mpr hmem] at h3
    cases h3
  · rintro ⟨h1, h2, h3, h4⟩
    rw [missingOf, List.mem_filter]
    refine ⟨h1, ?_⟩
    have hc : s.allowed_missing_variables.contains v = false := by
      cases hcc : s.allowed_missing_variables.contains v
      · rfl
      · exact absurd ((listContains_iff _ _).mp hcc) h3
    simp [h2, hc, h4, h3]

/-- Evaluation of `generate_prompt` on an already-loaded template with an
environment: inject `text_input`, analyze variables, and either render
the defaults-merged bag or raise the missing-variables error. -/
theorem generate_prompt_env_eq {α : Type} (fs : FS α) (s : PState α)
    (template : String) (ti : α) (kwargs : Dict (Option α)) (b : Bool)
    (td : TemplateData α) (env : EnvModel)
    (hld : dictGet? s.loaded_templates template = some td)
    (henv : td.environment = some env) :
    generate_prompt fs s template ti kwargs b =
      (let bag := dictSet kwargs "text_input" (some ti)
       let pr := get_template_variables fs s env td.template_name
       let miss := missingOf s bag pr.1
       if miss.isEmpty then
         (.ok (pyStrip (td.render (dictUpdate bag s.default_variable_values)),
               pr.1.foldl (fun acc v => dictSet acc v ((dictGet? bag v).getD none)) []),
          pr.2)
       else
         (.error (.missingVariables miss), pr.2)) := by
  have hf := get_template_variables_frame fs s env td.template_name
  obtain ⟨-, f2, f3, -, -, -, -, -, -, -, -⟩ := hf
  unfold generate_prompt
  rw [load_template_cached fs s template b td hld]
  simp only [henv, f2, f3]
  rfl

/-! ### Claim theorems -/

/-- Claim C2: on a loaded non-inline template, `generate_prompt` raises
the missing-variables error (`ValueError`, the spec's
`MissingVariablesError`) exactly when some required variable is absent
from the text-input-injected bag, the allowed-missing list and the
defaults table; the raised error carries every such variable, and when
there is none the render returns normally. -/
theorem generate_prompt_missing_variables_spec {α : Type} (fs : FS α)
    (s : PState α) (template : String) (ti : α) (kwargs : Dict (Option α))
    (b : Bool) (td : TemplateData α) (env : EnvModel)
    (hld : dictGet? s.loaded_templates template = some td)
    (henv : td.environment = some env)
    (bag : Dict (Option α)) (hbag : bag = dictSet kwargs "text_input" (some ti))
    (vs : List String)
    (hvs : vs = (get_template_variables fs s env td.template_name).1) :
    (∀ v, v ∈ missingOf s bag vs ↔
      (v ∈ vs ∧ dictHas bag v = false ∧ v ∉ s.allowed_missing_variables
        ∧ dictHas s.default_variable_values v = false))
    ∧ ((∃ v ∈ vs, dictHas bag v = false ∧ v ∉ s.allowed_missing_variables
          ∧ dictHas s.default_variable_values v = false) →
        (generate_prompt fs s template ti kwargs b).1
          = .error (.missingVariables (missingOf s bag vs)))
    ∧ ((∀ v ∈ vs, dictHas bag v = true ∨ v ∈ s.allowed_missing_variables
          ∨ dictHas s.default_variable_values v = true) →
        ∃ res, (generate_prompt fs s template ti kwargs b).1 = .ok res) := by
  subst hbag
  subst hvs
  refine ⟨fun v => missingOf_mem s _ _ v, ?_, ?_⟩
  · rintro ⟨v, hv, h2, h3, h4⟩
    have hvm : v ∈ missingOf s (dictSet kwargs "text_input" (some ti))
        (get_template_variables fs s env td.template_name).1 :=
      (missingOf_mem s _ _ v).mpr ⟨hv, h2, h3, h4⟩
    have hne : (missingOf s (dictSet kwargs "text_input" (some ti))
        (get_template_variables fs s env td.template_name).1).isEmpty = false := by
      cases hE : (missingOf s (dictSet kwargs "text_input" (some ti))
          (get_template_variables fs s env td.template_name).1).isEmpty
      · rfl
      · rw [List.isEmpty_iff] at hE
        rw [hE] at hvm
        cases hvm
    rw [generate_prompt_env_eq fs s template ti kwargs b td env hld henv]
    simp [hne]
  · intro hall
    have hnil : missingOf s (dictSet kwargs "text_input" (some ti))
        (get_template_variables fs s env td.template_name).1 = [] := by
      rw [List.eq_nil_iff_forall_not_mem]
      intro v hv
      rw [missingOf_mem] at hv
      obtain ⟨h1, h2, h3, h4⟩ := hv
      rcases hall v h1 with h | h | h
      · rw [h2] at h
        cases h
      · exact h3 h
      · rw [h4] at h
        cases h
    rw [generate_prompt_env_eq fs s template ti kwargs b td env hld henv]
    simp [hnil]

/-- Witness for C2: on `t` (requiring `text_input` and `topic`) with an
empty caller bag, the render fails naming `topic`; supplying `topic`
makes it succeed. -/
theorem generate_prompt_missing_variables_spec_witness :
    (dictGet? s0.loaded_templates "t" = some td0)
    ∧ ((∃ v ∈ ["text_input", "topic"],
          dictHas (dictSet [] "text_input" (some "x")) v = false
          ∧ v ∉ s0.allowed_missing_variables
          ∧ dictHas s0.default_variable_values v = false))
    ∧ (generate_prompt fs0 s0 "t" "x" [] false).1
        = .error (.missingVariables
            (missingOf s0 (dictSet [] "text_input" (some "x")) ["text_input", "topic"]))
    ∧ missingOf s0 (dictSet [] "text_input" (some "x")) ["text_input", "topic"]
        = ["topic"] := by
  refine ⟨rfl, by decide, ?_, by decide⟩
  exact (generate_prompt_missing_variables_spec fs0 s0 "t" "x" [] false td0
    { loaderDir := "dir" } rfl rfl _ rfl _ rfl).2.1 (by decide)

/-- Claim C3: a successful render of a loaded non-inline template returns
a `variables_dict` whose key set is exactly the required-variable set,
each key mapped to its value in the text-input-injected caller bag
(`None` when absent); the snapshot is taken before the defaults merge and
does not depend on the defaults table. -/
theorem generate_prompt_resolved_variables_spec {α : Type} (fs : FS α)
    (s : PState α) (template : String) (ti : α) (kwargs : Dict (Option α))
    (b : Bool) (td : TemplateData α) (env : EnvModel)
    (hld : dictGet? s.loaded_templates template = some td)
    (henv : td.environment = some env)
    (bag : Dict (Option α)) (hbag : bag = dictSet kwargs "text_input" (some ti))
    (vs : List String)
    (hvs : vs = (get_template_variables fs s env td.template_name).1)
    (p : String) (vd : Dict (Option α))
    (hok : (generate_prompt fs s template ti kwargs b).1 = .ok (p, vd)) :
    (∀ v, dictHas vd v = true ↔ v ∈ vs)
    ∧ (∀ v ∈ vs, dictGet? vd v = some ((dictGet? bag v).getD none))
    ∧ (∀ (d2 : Dict (Option α)) (p2 : String) (vd2 : Dict (Option α)),
        (generate_prompt fs { s with default_variable_values := d2 }
            template ti kwargs b).1 = .ok (p2, vd2) → vd2 = vd) := by
  subst hbag
  subst hvs
  rw [generate_prompt_env_eq fs s template ti kwargs b td env hld henv] at hok
  simp only [] at hok
  cases hE : (missingOf s (dictSet kwargs "text_input" (some ti))
      (get_template_variables fs s env td.template_name).1).isEmpty
  · rw [hE] at hok
    simp at hok
  · rw [hE] at hok
    simp only [if_pos, Prod.mk.injEq, Except.ok.injEq, ite_true] at hok
    obtain ⟨hp, hvd⟩ := hok
    subst hvd
    refine ⟨?_, ?_, ?_⟩
    · intro v
      rw [dictHas, dictGet?_foldl_dictSet]
      by_cases hm : v ∈ (get_template_variables fs s env td.template_name).1
      · simp [hm]
      · simp [hm, dictGet?]
    · intro v hm
      rw [dictGet?_foldl_dictSet]
      simp [hm]
    · intro d2 p2 vd2 hok2
      rw [generate_prompt_env_eq fs { s with default_variable_values := d2 }
        template ti kwargs b td env hld henv] at hok2
      have hvseq : (get_template_variables fs
          { s with default_variable_values := d2 } env td.template_name).1
          = (get_template_variables fs s env td.template_name).1 := by
        rw [get_template_variables_fst, get_template_variables_fst]
      simp only [hvseq] at hok2
      cases hE2 : (missingOf { s with default_variable_values := d2 }
          (dictSet kwargs "text_input" (some ti))
          (get_template_variables fs s env td.template_name).1).isEmpty
      · rw [hE2] at hok2
        simp at hok2
      · rw [hE2] at hok2
        simp only [if_pos, Prod.mk.injEq, Except.ok.injEq, ite_true] at hok2
        exact hok2.2.symm

/-- Witness for C3: a successful render of `t` (variables `text_input`,
`topic`) reports exactly those two variables with the caller-supplied
values. -/
theorem generate_prompt_resolved_variables_spec_witness :
    ((generate_prompt fs0 s0 "t" "x" [("topic", some "ai")] false).1
        = .ok ("ai", [("text_input", some "x"), ("topic", some "ai")]))
    ∧ (dictHas [("text_input", some "x"), ("topic", some "ai")] "examples" = true
        ↔ "examples" ∈ ["text_input", "topic"])
    ∧ dictGet? [("text_input", some "x"), ("topic", some "ai")] "topic"
        = some ((dictGet?
            (dictSet [("topic", some "ai")] "text_input" (some "x")) "topic").getD none) := by
  have h := generate_prompt_resolved_variables_spec fs0 s0 "t" "x"
    [("topic", some "ai")] false td0 { loaderDir := "dir" } rfl rfl _ rfl _ rfl
    "ai" [("text_input", some "x"), ("topic", some "ai")] rfl
  exact ⟨rfl, h.1 "examples", h.2.1 "topic" (by decide)⟩

/-- Claim C7: a template loaded from an inline string has no environment,
so `generate_prompt` skips the variable analysis and the missing-variable
check entirely: for any caller bag it succeeds, with `variables_dict`
equal to the single implicit slot `data := None`, rendering the
defaults-merged bag; only the template cache and parse counter change. -/
theorem generate_prompt_inline_spec {α : Type} (fs : FS α) (s : PState α)
    (template : String) (ti : α) (kwargs : Dict (Option α))
    (hnc : dictGet? s.loaded_templates template = none) :
    generate_prompt fs s template ti kwargs true =
      (.ok (pyStrip (fs.compileString template
              (dictUpdate (dictSet kwargs "text_input" (some ti))
                s.default_variable_values)),
            [("data", (none : Option α))]),
       { s with
         loaded_templates := dictSet s.loaded_templates template
           { template_name := "from_string"
             template_dir := none
             environment := none
             render := fs.compileString template }
         parseCount := s.parseCount + 1 }) := by
  unfold generate_prompt load_template
  rw [hnc]
  rfl

/-- Witness for C7: rendering the never-loaded inline source `tsrc` with
an empty bag succeeds with `variables_dict = [(data, None)]`. -/
theorem generate_prompt_inline_spec_witness :
    (dictGet? sEmpty.loaded_templates "tsrc" = none)
    ∧ (generate_prompt fs0 sEmpty "tsrc" "x" [] true).1
        = .ok ("INLINE", [("data", (none : Option String))]) := by
  refine ⟨rfl, ?_⟩
  rw [generate_prompt_inline_spec fs0 sEmpty "tsrc" "x" [] rfl]
  rfl

/-- Claim C9: `generate_prompt` puts `text_input` into the bag before the
missing-variable check, so a raised missing-variables error never names
`text_input`, and on success `variables_dict` maps `text_input` to the
`text_input` argument. -/
theorem generate_prompt_text_input_injection_spec {α : Type} (fs : FS α)
    (s : PState α) (template : String) (ti : α) (kwargs : Dict (Option α))
    (b : Bool) (td : TemplateData α) (env : EnvModel)
    (hld : dictGet? s.loaded_templates template = some td)
    (henv : td.environment = some env)
    (vs : List String)
    (hvs : vs = (get_template_variables fs s env td.template_name).1)
    (hmem : "text_input" ∈ vs) :
    (∀ L, (generate_prompt fs s template ti kwargs b).1
        = .error (.missingVariables L) → "text_input" ∉ L)
    ∧ (∀ (p : String) (vd : Dict (Option α)),
        (generate_prompt fs s template ti kwargs b).1 = .ok (p, vd) →
        dictGet? vd "text_input" = some (some ti)) := by
  subst hvs
  have hbag : dictHas (dictSet kwargs "text_input" (some ti)) "text_input" = true := by
    rw [dictHas, dictGet?_dictSet]
    simp
  constructor
  · intro L hErr hmemL
    rw [generate_prompt_env_eq fs s template ti kwargs b td env hld henv] at hErr
    simp only [] at hErr
    cases hE : (missingOf s (dictSet kwargs "text_input" (some ti))
        (get_template_variables fs s env td.template_name).1).isEmpty
    · rw [hE] at hErr
      simp only [Bool.false_eq_true, if_false, GenError.missingVariables.injEq,
        Except.error.injEq] at hErr
      subst hErr
      have := ((missingOf_mem s _ _ "text_input").mp hmemL).2.1
      rw [hbag] at this
      cases this
    · rw [hE] at hErr
      simp at hErr
  · intro p vd hok
    rw [generate_prompt_env_eq fs s template ti kwargs b td env hld henv] at hok
    simp only [] at hok
    cases hE : (missingOf s (dictSet kwargs "text_input" (some ti))
        (get_template_variables fs s env td.template_name).1).isEmpty
    · rw [hE] at hok
      simp at hok
    · rw [hE] at hok
      simp only [if_pos, Prod.mk.injEq, Except.ok.injEq, ite_true] at hok
      obtain ⟨hp, hvd⟩ := hok
      subst hvd
      rw [dictGet?_foldl_dictSet]
      simp [hmem, dictGet?_dictSet]

/-- Witness for C9: with `topic` missing, the raised error names only
`topic`, never `text_input`; with `topic` supplied, the snapshot maps
`text_input` to the argument `"x"`. -/
theorem generate_prompt_text_input_injection_spec_witness :
    ("text_input" ∈ ["text_input", "topic"])
    ∧ "text_input" ∉ [("topic" : String)]
    ∧ dictGet? [("text_input", some "x"), ("topic", some "ai")] "text_input"
        = some (some "x") := by
  refine ⟨by decide, ?_, ?_⟩
  · exact (generate_prompt_text_input_injection_spec fs0 s0 "t" "x" [] false td0
      { loaderDir := "dir" } rfl rfl _ rfl (by decide)).1 ["topic"] rfl
  · exact (generate_prompt_text_input_injection_spec fs0 s0 "t" "x"
      [("topic", some "ai")] false td0 { loaderDir := "dir" } rfl rfl _ rfl
      (by decide)).2 "ai" [("text_input", some "x"), ("topic", some "ai")] rfl

/-- Claim C5: calling `load_template` again with a reference string that
is already loaded returns the very handle cached by the first call, with
the state — in particular the parse counter — completely unchanged; and
every successful `load_template` leaves its handle in the cache under the
reference, so the parse/compile routine is never invoked again for a
loaded reference during the process lifetime. -/
theorem load_template_cache_spec {α : Type} (fs : FS α) (s : PState α)
    (template : String) (td : TemplateData α)
    (h : dictGet? s.loaded_templates template = some td) :
    (∀ b : Bool, load_template fs s template b = (.ok td, s))
    ∧ (∀ (sAny : PState α) (b : Bool) (td' : TemplateData α) (s' : PState α),
        load_template fs sAny template b = (.ok td', s') →
        dictGet? s'.loaded_templates template = some td') := by
  constructor
  · intro b
    exact load_template_cached fs s template b td h
  · intro sAny b td' s' hload
    unfold load_template at hload
    split at hload
    · simp only [Prod.mk.injEq, Except.ok.injEq] at hload
      obtain ⟨h1, h2⟩ := hload
      subst h1
      subst h2
      assumption
    · split at hload
      · simp only [Prod.mk.injEq, Except.ok.injEq] at hload
        obtain ⟨h1, h2⟩ := hload
        subst h1
        subst h2
        simp [dictGet?_dictSet]
      · split at hload
        · split at hload
          · simp at hload
          · simp at hload
          · simp only [Prod.mk.injEq, Except.ok.injEq] at hload
            obtain ⟨h1, h2⟩ := hload
            subst h1
            subst h2
            simp [dictGet?_dictSet]
        · split at hload
          · simp at hload
          · simp only [Prod.mk.injEq, Except.ok.injEq] at hload
            obtain ⟨h1, h2⟩ := hload
            subst h1
            subst h2
            simp [dictGet?_dictSet]

/-- Witness for C5: the preloaded reference `t` is answered from the
cache with the state untouched, and a fresh inline load of `u` inserts
its handle into the cache. -/
theorem load_template_cache_spec_witness :
    (dictGet? s0.loaded_templates "t" = some td0)
    ∧ load_template fs0 s0 "t" false = (.ok td0, s0)
    ∧ dictGet?
        ((load_template fs0 sEmpty "u" true).2).loaded_templates "u"
        = some { template_name := "from_string"
                 template_dir := none
                 environment := none
                 render := fs0.compileString "u" } := by
  refine ⟨rfl, (load_template_cache_spec fs0 s0 "t" td0 rfl).1 false, ?_⟩
  exact (load_template_cache_spec fs0 s0 "t" td0 rfl).2 sEmpty true _ _ rfl

/-- Claim C6: a reference that is neither cached nor a built-in name is
treated as a filesystem path: loading fails with the path error
(`ValueError`, the spec's `PathNotFoundError`) when the path is not an
existing file; otherwise the containing directory (per `os.path.split`)
becomes both `template_dir` and the environment's loader directory. -/
theorem load_template_filesystem_path_spec {α : Type} (fs : FS α) (s : PState α)
    (template : String)
    (hnc : dictGet? s.loaded_templates template = none)
    (hnb : fs.listFolders.any (fun folder => folder ++ ".jinja" == template) = false) :
    (fs.isFile template = false →
      load_template fs s template false = (.error (.pathNotFound template), s))
    ∧ (fs.isFile template = true →
      load_template fs s template false =
        (.ok { template_name := (pathSplit template).2
               template_dir := some (pathSplit template).1
               environment := some { loaderDir := (pathSplit template).1 }
               render := fs.getTemplate (pathSplit template).1 (pathSplit template).2 },
         { s with
           loaded_templates := dictSet s.loaded_templates template
             { template_name := (pathSplit template).2
               template_dir := some (pathSplit template).1
               environment := some { loaderDir := (pathSplit template).1 }
               render := fs.getTemplate (pathSplit template).1 (pathSplit template).2 }
           parseCount := s.parseCount + 1 })) := by
  unfold load_template verify_template_path
  rw [hnc, hnb]
  constructor
  · intro hf
    simp [hf]
  · intro hf
    simp [hf]

/-- Witness for C6: `d/custom.jinja` is not cached and not built-in; it
exists, so it loads with search root `d`; the non-file `nope/x.jinja`
fails with the path error. -/
theorem load_template_filesystem_path_spec_witness :
    (dictGet? s0.loaded_templates "d/custom.jinja" = none
      ∧ fs0.listFolders.any (fun folder => folder ++ ".jinja" == "d/custom.jinja") = false
      ∧ ((load_template fs0 s0 "d/custom.jinja" false).1).map
          (fun td => (td.template_dir, td.environment))
        = .ok (some "d", some { loaderDir := "d" }))
    ∧ (dictGet? s0.loaded_templates "nope/x.jinja" = none
      ∧ load_template fs0 s0 "nope/x.jinja" false
        = (.error (.pathNotFound "nope/x.jinja"), s0)) := by
  constructor
  · refine ⟨rfl, rfl, ?_⟩
    rw [(load_template_filesystem_path_spec fs0 s0 "d/custom.jinja" rfl rfl).2 rfl]
    rfl
  · exact ⟨rfl, (load_template_filesystem_path_spec fs0 s0 "nope/x.jinja" rfl rfl).1 rfl⟩

/-- `List.find?` returns the first element satisfying the predicate. -/
theorem find?_append_first {γ : Type} (p : γ → Bool) (pre rest : List γ) (m : γ)
    (hpre : ∀ x ∈ pre, p x = false) (hm : p m = true) :
    (pre ++ m :: rest).find? p = some m := by
  induction pre with
  | nil => simpa using List.find?_cons_of_pos rest hm
  | cons a t ih =>
    have ha : p a = false := hpre a (by simp)
    rw [List.cons_append, List.find?_cons_of_neg _ (by simp [ha])]
    exact ih (fun x hx => hpre x (by simp [hx]))

/-- Claim C4: resolving a built-in template name selects the first
metadata entry whose `models` list contains the caller's model
identifier, and its folder becomes the template's directory and loader
root; when no entry matches, loading fails (`get_metadata` returns
`None` and the subscript on it raises — the spec's `ResolutionError`). -/
theorem load_template_metadata_selection_spec {α : Type} (fs : FS α) (s : PState α)
    (template : String) (entries : List MetaEntry)
    (hnc : dictGet? s.loaded_templates template = none)
    (hb : fs.listFolders.any (fun folder => folder ++ ".jinja" == template) = true)
    (hmd : fs.readMetadata (pySplitHead template ".jinja") = some entries) :
    (∀ (pre rest : List MetaEntry) (m : MetaEntry),
      entries = pre ++ m :: rest →
      (∀ x ∈ pre, x.models.contains s.model = false) →
      m.models.contains s.model = true →
      load_template fs s template false =
        (.ok { template_name := m.file_name
               template_dir := some
                 (pathJoin fs.templatesDir (pySplitHead template ".jinja"))
               environment := some
                 { loaderDir :=
                     pathJoin fs.templatesDir (pySplitHead template ".jinja") }
               render := fs.getTemplate
                 (pathJoin fs.templatesDir (pySplitHead template ".jinja"))
                 m.file_name },
         { s with
           loaded_templates := dictSet s.loaded_templates template
             { template_name := m.file_name
               template_dir := some
                 (pathJoin fs.templatesDir (pySplitHead template ".jinja"))
               environment := some
                 { loaderDir :=
                     pathJoin fs.templatesDir (pySplitHead template ".jinja") }
               render := fs.getTemplate
                 (pathJoin fs.templatesDir (pySplitHead template ".jinja"))
                 m.file_name }
           parseCount := s.parseCount + 1 }))
    ∧ ((∀ x ∈ entries, x.models.contains s.model = false) →
      load_template fs s template false
        = (.error (.resolutionError s.model template), s)) := by
  unfold load_template get_metadata
  simp only [hnc, hb, hmd]
  constructor
  · intro pre rest m hsplit hpre hm
    subst hsplit
    rw [find?_append_first _ pre rest m hpre hm]
    simp
  · intro hnone
    have hfind : entries.find? (fun mm => mm.models.contains s.model) = none :=
      List.find?_eq_none.mpr (fun x hx => by rw [hnone x hx]; simp)
    rw [hfind]
    simp

/-- Witness for C4: with active model `model-b`, loading `ner.jinja`
skips the `model-a` entry and selects the `model-b` entry (directory
`p/text2text/ner`); with a model no entry lists, loading fails with the
resolution error. -/
theorem load_template_metadata_selection_spec_witness :
    (dictGet? s0.loaded_templates "ner.jinja" = none
      ∧ fs0.listFolders.any (fun folder => folder ++ ".jinja" == "ner.jinja") = true
      ∧ fs0.readMetadata (pySplitHead "ner.jinja" ".jinja") = some [metaA, metaB]
      ∧ ((load_template fs0 s0 "ner.jinja" false).1).map
          (fun td => (td.template_name, td.template_dir))
        = .ok ("b.jinja", some "p/text2text/ner"))
    ∧ load_template fs0 sNoMatch "ner.jinja" false
        = (.error (.resolutionError "model-c" "ner.jinja"), sNoMatch) := by
  constructor
  · refine ⟨rfl, rfl, rfl, ?_⟩
    rw [(load_template_metadata_selection_spec fs0 s0 "ner.jinja" [metaA, metaB]
      rfl rfl rfl).1 [metaA] [] metaB rfl (by decide) (by decide)]
    rfl
  · exact (load_template_metadata_selection_spec fs0 sNoMatch "ner.jinja" [metaA, metaB]
      rfl rfl rfl).2 (by decide)

/-- Claim C1 (the code contradicts it): `generate_prompt` merges defaults
with `kwargs.update(self.default_variable_values)`, which overwrites
caller-supplied values.  Evaluating the renderer on template `t` (which
renders its `topic` slot) with the caller explicitly supplying
`topic := "caller"` and the defaults table holding `topic := "default"`
yields the rendered text `"default"`: the default value wins over the
explicit input, even though `variables_dict` still reports the caller's
value. -/
theorem generate_prompt_defaults_override_caller :
    (generate_prompt fs0 sDef "t" "hello" [("topic", some "caller")] false).1
      = .ok ("default", [("text_input", some "hello"), ("topic", some "caller")])
    ∧ dictGet? sDef.default_variable_values "topic" = some (some "default") := by
  exact ⟨rfl, rfl⟩

/-- Claim C8: no `generate_prompt` call — succeeding or failing — changes
the defaults table or the allowed-missing list; the explicit
`update_default_variable_values` is what changes the defaults table,
merging its argument in with overwrite on key collision. -/
theorem renderer_defaults_frame_spec {α : Type} (fs : FS α) :
    (∀ (s : PState α) (template : String) (ti : α)
        (kwargs : Dict (Option α)) (b : Bool),
      ((generate_prompt fs s template ti kwargs b).2).default_variable_values
          = s.default_variable_values
      ∧ ((generate_prompt fs s template ti kwargs b).2).allowed_missing_variables
          = s.allowed_missing_variables)
    ∧ (∀ (s : PState α) (nd : Dict (Option α)),
      (update_default_variable_values s nd).default_variable_values
          = dictUpdate s.default_variable_values nd
      ∧ ((nd.map Prod.fst).Nodup →
        ∀ k, dictGet? (update_default_variable_values s nd).default_variable_values k
          = if dictHas nd k then dictGet? nd k
            else dictGet? s.default_variable_values k)) := by
  constructor
  · intro s template ti kwargs b
    have h := generate_prompt_frame fs s template ti kwargs b
    exact ⟨h.2.2.1, h.2.1⟩
  · intro s nd
    exact ⟨rfl, fun hnd k => dictGet?_dictUpdate s.default_variable_values nd hnd k⟩

/-- Witness for C8: a concrete render leaves the defaults untouched, and
a concrete update merges a new binding in. -/
theorem renderer_defaults_frame_spec_witness :
    (([("topic", (some "x" : Option String))].map Prod.fst).Nodup)
    ∧ ((generate_prompt fs0 s0 "t" "x" [] false).2).default_variable_values
        = s0.default_variable_values
    ∧ dictGet? (update_default_variable_values s0
          [("topic", some "x")]).default_variable_values "topic"
      = (if dictHas [("topic", (some "x" : Option String))] "topic"
          then dictGet? [("topic", (some "x" : Option String))] "topic"
          else dictGet? s0.default_variable_values "topic") := by
  refine ⟨by decide, ((renderer_defaults_frame_spec fs0).1 s0 "t" "x" [] false).1, ?_⟩
  exact ((renderer_defaults_frame_spec fs0).2 s0 [("topic", some "x")]).2
    (by decide) "topic"

/-- Claim C10: with prompt caching enabled, a `fit` whose rendered prompt
is already a key of the prompt cache returns the cached outputs and stops:
the model is not invoked, no message is appended, and the transcript is
not rewritten; on a cache miss the model is invoked and (on success) a
message is appended and the transcript rewritten. -/
theorem fit_prompt_cache_spec {α : Type} (fs : FS α) (ext : ModelExt)
    (s : PState α) (template : String) (ti : α) (kwargs : Dict (Option α))
    (b : Bool) (prompt : String) (vd : Dict (Option α)) (s1 : PState α)
    (hgen : generate_prompt fs s template ti kwargs b = (.ok (prompt, vd), s1))
    (hcp : s.cache_prompt = true) :
    (∀ outs, dictGet? s1.prompt_cache prompt = some outs →
      fit fs ext s template ti kwargs b = (.ok outs, s1)
      ∧ s1.messages = s.messages
      ∧ s1.transcriptWrites = s.transcriptWrites
      ∧ s1.modelInvocations = s.modelInvocations
      ∧ s1.prompt_cache = s.prompt_cache)
    ∧ (dictGet? s1.prompt_cache prompt = none →
      ((fit fs ext s template ti kwargs b).2).modelInvocations
          = s.modelInvocations + 1
      ∧ (∀ outs2, (fit fs ext s template ti kwargs b).1 = .ok outs2 →
          ∃ msg, ((fit fs ext s template ti kwargs b).2).messages
              = s.messages ++ [msg]
          ∧ ((fit fs ext s template ti kwargs b).2).transcriptWrites
              = s.transcriptWrites + 1)) := by
  have hf := generate_prompt_frame fs s template ti kwargs b
  rw [hgen] at hf
  simp only at hf
  obtain ⟨-, -, -, f4, f5, -, f7, f8, f9⟩ := hf
  constructor
  · intro outs houts
    have hhit : (s1.cache_prompt && dictHas s1.prompt_cache prompt) = true := by
      rw [f5, hcp, dictHas, houts]
      rfl
    unfold fit
    rw [hgen]
    simp only [hhit, if_true, ite_true, houts]
    exact ⟨rfl, f7, f8, f9, f4⟩
  · intro hmiss
    have hmiss2 : (s1.cache_prompt && dictHas s1.prompt_cache prompt) = false := by
      rw [dictHas, hmiss]
      simp
    unfold fit
    rw [hgen]
    simp only [hmiss2, Bool.false_eq_true, if_false, ite_false]
    have hcp1 : s1.cache_prompt = true := f5.trans hcp
    cases houts : ext.runModel prompt s1.max_completion_length with
    | nil =>
      simp only [houts, hcp1, if_true, ite_true]
      refine ⟨f9 ▸ rfl, ?_⟩
      intro outs2 hok
      simp at hok
    | cons o rest =>
      simp only [houts, hcp1, if_true, ite_true]
      refine ⟨f9 ▸ rfl, ?_⟩
      intro outs2 hok
      refine ⟨⟨template, prompt, o.text, o.completion, vd⟩, ?_, ?_⟩
      · rw [f7]
      · rw [f8]

/-- Witness for C10: with caching on and the prompt `ai` cached, `fit`
returns the cached outputs with the state unchanged; for the uncached
prompt `zz` it invokes the model once. -/
theorem fit_prompt_cache_spec_witness :
    (generate_prompt fs0 sCache "t" "x" [("topic", some "ai")] false
        = (.ok ("ai", [("text_input", some "x"), ("topic", some "ai")]), sCache))
    ∧ sCache.cache_prompt = true
    ∧ dictGet? sCache.prompt_cache "ai"
        = some [{ text := "cached-text", completion := "cached" }]
    ∧ fit fs0 ext0 sCache "t" "x" [("topic", some "ai")] false
        = (.ok [{ text := "cached-text", completion := "cached" }], sCache)
    ∧ ((fit fs0 ext0 sCache "t" "x" [("topic", some "zz")] false).2).modelInvocations
        = sCache.modelInvocations + 1 := by
  refine ⟨rfl, rfl, rfl, ?_, ?_⟩
  · exact ((fit_prompt_cache_spec fs0 ext0 sCache "t" "x" [("topic", some "ai")]
      false "ai" [("text_input", some "x"), ("topic", some "ai")] sCache rfl rfl).1
      [{ text := "cached-text", completion := "cached" }] rfl).1
  · exact ((fit_prompt_cache_spec fs0 ext0 sCache "t" "x" [("topic", some "zz")]
      false "zz" [("text_input", some "x"), ("topic", some "zz")] sCache rfl rfl).2
      rfl).1

end Promptify
